import Mathlib

/-!
Verification of the AndroidVisionAutomator control loop against its sources.

The Python sources are shallowly embedded:
* `Json` models Python values produced by `json.loads` (restricted to
  integer numerals; every input used in a theorem stays inside this
  fragment, where the model agrees with Python's `json` module).
* Python string primitives (`str.find`, `str.rfind`, slicing, `in`,
  `str.upper`) are modelled character-wise on `List Char`.
* The LLM gateway (`llm.complete`) is modelled as a deterministic
  function from the prompt to either a response or a raised exception;
  each embedded operation returns the list of prompts it actually sent
  to the gateway together with its Python return value, and raised
  Python exceptions are modelled with `Except PyErr`.
-/

set_option maxRecDepth 100000

/-- Python exceptions raised by the embedded code paths. -/
inductive PyErr where
  | indexError
  | valueError (msg : String)
  | jsonDecodeError
  | keyError (key : String)
  | typeError
  | attributeError
  | apiError
deriving DecidableEq

/-- Model of the Python values handled by `json.loads` / `json.dumps`
    in this codebase.  Numerals are restricted to integers: no input used
    in any theorem below contains a fractional or exponent numeral, so the
    model agrees with Python `json` on all of them.  Objects keep insertion
    order, as Python dicts do. -/
inductive Json where
  | null
  | bool (b : Bool)
  | num (n : Int)
  | str (s : String)
  | arr (elems : List Json)
  | obj (fields : List (String × Json))

/-- Python dict with string keys (`Dict[str, Any]`), insertion ordered. -/
abbrev PyDict := List (String × Json)

/-- `d.get(k)` on a Python dict: `None` when the key is absent. -/
def pyDictGet (d : PyDict) (k : String) : Option Json :=
  (d.find? (fun kv => kv.1 == k)).map (fun kv => kv.2)

/-- Python `v == lit` where `lit` is a `str` literal and `v` an arbitrary
    value (possibly `None`): equality is `False` unless `v` is the same
    string. -/
def pyEqStr (v : Option Json) (lit : String) : Bool :=
  match v with
  | some (Json.str t) => t == lit
  | _ => false

/-! ### Python string primitives, modelled on `List Char` -/

/-- Index of the first occurrence of `c`, if any. -/
def pyFindAux (c : Char) : List Char → Option Nat
  | [] => none
  | d :: l => if d == c then some 0 else (pyFindAux c l).map (· + 1)

/-- Python `s.find(c)` for a single-character needle: first index or `-1`. -/
def pyFind (l : List Char) (c : Char) : Int :=
  match pyFindAux c l with
  | some n => (n : Int)
  | none => -1

/-- Python `s.rfind(c)` for a single-character needle: last index or `-1`. -/
def pyRfind (l : List Char) (c : Char) : Int :=
  match pyFindAux c l.reverse with
  | some n => (l.length : Int) - 1 - n
  | none => -1

/-- Python slice `s[a:b]` for the non-negative bounds this codebase
    produces (`a = find(...) ≥ 0` is checked at every call site and
    `b = rfind(...) + 1 ≥ 0` always); out-of-range bounds clamp, as in
    Python. -/
def pySlice (l : List Char) (a b : Int) : List Char :=
  (l.take b.toNat).drop a.toNat

/-- Does `l` start with `p`? -/
def listStartsWith : List Char → List Char → Bool
  | _, [] => true
  | [], _ :: _ => false
  | c :: l, d :: p => c == d && listStartsWith l p

/-- Python `p in s` on characters lists: contiguous-substring test. -/
def listContainsSub : List Char → List Char → Bool
  | [], p => p.isEmpty
  | c :: l, p => listStartsWith (c :: l) p || listContainsSub l p

/-- Python `p in s` on strings. -/
def strContains (s p : String) : Bool :=
  listContainsSub s.data p.data

/-- Python `s.upper()`, character-wise.  Python's `str.upper` agrees with
    character-wise `Char.toUpper` on the ASCII responses considered here. -/
def pyUpper (s : String) : String :=
  String.mk (s.data.map Char.toUpper)

example : strContains "Sure, YES it did" "YES" = true := rfl
example : strContains "no" "YES" = false := rfl
example : pyFind "ab\x7bc".data '\x7b' = 2 := rfl
example : pyRfind "a\x7db\x7dc".data '\x7d' = 3 := rfl
example : pySlice "hello".data 1 3 = "el".data := rfl
example : pyUpper "yes!" = "YES!" := rfl

/-! ### Model of Python `json.loads`

The recursive-descent parser below follows the JSON grammar as Python's
`json` module accepts it, restricted to the fragment exercised by any
theorem in this file: integer numerals (no fraction/exponent, which the
model rejects rather than misreads), the single-character escapes, and
no `\u` escapes.  `json.loads` demands that the whole input be exactly
one JSON value surrounded only by whitespace; trailing text is a
`JSONDecodeError`, which is what the claims about prose-wrapped oracle
output hinge on. -/

/-- JSON whitespace. -/
def jsonWs (c : Char) : Bool := [' ', '\t', '\n', '\r'].contains c

/-- Drop leading JSON whitespace. -/
def skipWs : List Char → List Char
  | [] => []
  | c :: l => if jsonWs c then skipWs l else c :: l

/-- Escape-letter table for JSON strings: what follows a backslash and
    the character it denotes (`\u` is not modelled; no verified input
    uses it). -/
def jsonEscTable : List (Char × Char) :=
  [('"', '"'), ('\\', '\\'), ('/', '/'), ('n', '\n'), ('t', '\t'),
   ('r', '\r'), ('b', Char.ofNat 8), ('f', Char.ofNat 12)]

/-- Single-character JSON string escapes, looked up in the table. -/
def jsonEscChar (c : Char) : Option Char :=
  (jsonEscTable.find? (fun p => p.1 == c)).map (fun p => p.2)

/-- Body of a JSON string after the opening quote: content plus rest. -/
def parseStrBody : List Char → Option (List Char × List Char)
  | [] => none
  | '"' :: r => some ([], r)
  | '\\' :: e :: r =>
    match jsonEscChar e with
    | some c => (parseStrBody r).map (fun p => (c :: p.1, p.2))
    | none => none
  | c :: r => (parseStrBody r).map (fun p => (c :: p.1, p.2))

/-- Digit run to an integer value. -/
def digitsToInt (ds : List Char) : Int :=
  ds.foldl (fun n c => 10 * n + ((c.toNat : Int) - 48)) 0

/-- After an integer numeral, `.`/`e`/`E` would start a float, which the
    model deliberately rejects instead of misreading. -/
def numBreak : List Char → Bool
  | [] => true
  | c :: _ => !(c == '.' || c == 'e' || c == 'E')

mutual

/-- One JSON value (leading whitespace allowed); returns the rest. -/
def parseVal : Nat → List Char → Option (Json × List Char)
  | 0, _ => none
  | fuel + 1, l =>
    match skipWs l with
    | 'n' :: 'u' :: 'l' :: 'l' :: r => some (Json.null, r)
    | 't' :: 'r' :: 'u' :: 'e' :: r => some (Json.bool true, r)
    | 'f' :: 'a' :: 'l' :: 's' :: 'e' :: r => some (Json.bool false, r)
    | '"' :: r => (parseStrBody r).map (fun p => (Json.str (String.mk p.1), p.2))
    | '-' :: r =>
      let p := r.span Char.isDigit
      if p.1.isEmpty then none
      else if numBreak p.2 then some (Json.num (-(digitsToInt p.1)), p.2) else none
    | '[' :: r =>
      (match skipWs r with
       | ']' :: r2 => some (Json.arr [], r2)
       | _ => (parseArrItems fuel r).map (fun p => (Json.arr p.1, p.2)))
    | '\x7b' :: r =>
      (match skipWs r with
       | '\x7d' :: r2 => some (Json.obj [], r2)
       | _ => (parseObjItems fuel r).map (fun p => (Json.obj p.1, p.2)))
    | c :: r =>
      if c.isDigit then
        let p := (c :: r).span Char.isDigit
        if numBreak p.2 then some (Json.num (digitsToInt p.1), p.2) else none
      else none
    | [] => none

/-- Comma-separated array items up to the closing bracket. -/
def parseArrItems : Nat → List Char → Option (List Json × List Char)
  | 0, _ => none
  | fuel + 1, l =>
    match parseVal fuel l with
    | none => none
    | some (v, r) =>
      match skipWs r with
      | ',' :: r2 => (parseArrItems fuel r2).map (fun p => (v :: p.1, p.2))
      | ']' :: r2 => some ([v], r2)
      | _ => none

/-- Comma-separated `"key": value` pairs up to the closing brace. -/
def parseObjItems : Nat → List Char → Option (List (String × Json) × List Char)
  | 0, _ => none
  | fuel + 1, l =>
    match skipWs l with
    | '"' :: r =>
      (match parseStrBody r with
       | none => none
       | some (k, r2) =>
         match skipWs r2 with
         | ':' :: r3 =>
           (match parseVal fuel r3 with
            | none => none
            | some (v, r4) =>
              match skipWs r4 with
              | ',' :: r5 =>
                (parseObjItems fuel r5).map (fun p => ((String.mk k, v) :: p.1, p.2))
              | '\x7d' :: r5 => some ([(String.mk k, v)], r5)
              | _ => none)
         | _ => none)
    | _ => none

end

/-- Python `json.loads` on character lists: exactly one JSON value,
    surrounded only by whitespace, else `json.JSONDecodeError`. -/
def jsonLoadsL (l : List Char) : Except PyErr Json :=
  match parseVal (2 * l.length + 4) l with
  | some (v, rest) =>
    if (skipWs rest).isEmpty then Except.ok v else Except.error PyErr.jsonDecodeError
  | none => Except.error PyErr.jsonDecodeError

/-- Python `json.loads` on strings. -/
def jsonLoads (s : String) : Except PyErr Json := jsonLoadsL s.data

example : jsonLoads "\x7b\"a\": 1\x7d" = Except.ok (Json.obj [("a", Json.num 1)]) := rfl
example :
    jsonLoads " [\x7b\"action\": \"click\", \"target\": null\x7d, -3, true] " =
      Except.ok (Json.arr
        [Json.obj [("action", Json.str "click"), ("target", Json.null)],
         Json.num (-3), Json.bool true]) := rfl
example : jsonLoads "I cannot help with that." = Except.error PyErr.jsonDecodeError := rfl
example : jsonLoads "\x7b\"a\": 1\x7d trailing" = Except.error PyErr.jsonDecodeError := rfl
example : jsonLoads "" = Except.error PyErr.jsonDecodeError := rfl

/-! ### Models of Python `json.dumps(·, indent=2)`, `str()` and `repr()`

These serializers are used only inside f-string prompt construction.
String contents in every verified input are plain (no quotes, backslashes
or control characters), where Python's string escaping is the identity and
`repr` of a `str` wraps it in single quotes. -/

/-- `n` spaces. -/
def spacesN (n : Nat) : String := String.mk (List.replicate n ' ')

mutual

/-- `json.dumps(v, indent=ind)`-style rendering at current indent `ind`
    with per-level increase 2, Python's layout exactly. -/
def jsonDumpsInd : Nat → Json → String
  | _, Json.null => "null"
  | _, Json.bool true => "true"
  | _, Json.bool false => "false"
  | _, Json.num n => toString n
  | _, Json.str s => "\"" ++ s ++ "\""
  | ind, Json.arr xs =>
    (match xs with
     | [] => "[]"
     | _ :: _ => "[\n" ++ jsonDumpsItems (ind + 2) xs ++ "\n" ++ spacesN ind ++ "]")
  | ind, Json.obj fs =>
    (match fs with
     | [] => "\x7b\x7d"
     | _ :: _ => "\x7b\n" ++ jsonDumpsFields (ind + 2) fs ++ "\n" ++ spacesN ind ++ "\x7d")

/-- Array items, one per line at indent `ind`, comma-separated. -/
def jsonDumpsItems : Nat → List Json → String
  | _, [] => ""
  | ind, [x] => spacesN ind ++ jsonDumpsInd ind x
  | ind, x :: y :: ys =>
    spacesN ind ++ jsonDumpsInd ind x ++ ",\n" ++ jsonDumpsItems ind (y :: ys)

/-- Object fields, one per line at indent `ind`, comma-separated. -/
def jsonDumpsFields : Nat → List (String × Json) → String
  | _, [] => ""
  | ind, [(k, v)] => spacesN ind ++ "\"" ++ k ++ "\": " ++ jsonDumpsInd ind v
  | ind, (k, v) :: g :: gs =>
    spacesN ind ++ "\"" ++ k ++ "\": " ++ jsonDumpsInd ind v ++ ",\n"
      ++ jsonDumpsFields ind (g :: gs)

end

/-- `json.dumps(v, indent=2)`. -/
def jsonDumps2 (v : Json) : String := jsonDumpsInd 0 v

example :
    jsonDumps2 (Json.obj [("intent", Json.str "send_message"),
      ("entities", Json.obj [("contact", Json.str "Mom")])]) =
    "\x7b\n  \"intent\": \"send_message\",\n  \"entities\": \x7b\n    \"contact\": \"Mom\"\n  \x7d\n\x7d" := rfl

mutual

/-- Python `repr()` of a JSON-shaped value (as Python renders the object
    `json.loads` built): `None`, `True`, `False`, numbers, single-quoted
    strings, square-bracketed lists and braced dicts. -/
def pyRepr : Json → String
  | Json.null => "None"
  | Json.bool true => "True"
  | Json.bool false => "False"
  | Json.num n => toString n
  | Json.str s => "\x27" ++ s ++ "\x27"
  | Json.arr xs => "[" ++ pyReprItems xs ++ "]"
  | Json.obj fs => "\x7b" ++ pyReprFields fs ++ "\x7d"

/-- List elements, `", "`-separated. -/
def pyReprItems : List Json → String
  | [] => ""
  | [x] => pyRepr x
  | x :: y :: ys => pyRepr x ++ ", " ++ pyReprItems (y :: ys)

/-- Dict entries, `", "`-separated. -/
def pyReprFields : List (String × Json) → String
  | [] => ""
  | [(k, v)] => "\x27" ++ k ++ "\x27: " ++ pyRepr v
  | (k, v) :: g :: gs =>
    "\x27" ++ k ++ "\x27: " ++ pyRepr v ++ ", " ++ pyReprFields (g :: gs)

end

/-- Python `str()` as used by f-string interpolation: identity on `str`,
    `repr`-style otherwise. -/
def pyStr : Json → String
  | Json.str s => s
  | v => pyRepr v

/-- f-string interpolation of a possibly-`None` value. -/
def pyStrOpt : Option Json → String
  | none => "None"
  | some v => pyStr v

example : pyStrOpt (some (Json.arr [Json.str "Chats", Json.str "Status"])) =
    "[\x27Chats\x27, \x27Status\x27]" := rfl
example : pyStrOpt none = "None" := rfl

/-- Python truthiness of the values concerned. -/
def jsonTruthy : Json → Bool
  | Json.null => false
  | Json.bool b => b
  | Json.num n => n != 0
  | Json.str s => !s.isEmpty
  | Json.arr xs => !xs.isEmpty
  | Json.obj fs => !fs.isEmpty

/-- Python `a or b` on possibly-`None` values. -/
def pyOr (a b : Option Json) : Option Json :=
  match a with
  | some v => if jsonTruthy v then a else b
  | none => b

/-! ### Data model (from the dataclasses in `android_vision_mcp.py`)

Field values come from `dict.get` on untrusted decoded JSON, so they are
`Option Json` (Python `None` or any value).  `IntentRef` carries, next to
the `UserIntent` record, the Python object identity `id(intent)` of the
dataclass instance: Python passes the instance by reference, and
`TaskPlanner.plan_task` derives `task_id` from `id(intent)`. -/

/-- `UserIntent` dataclass. -/
structure UserIntent where
  intent : Option Json
  target_app : Option Json
  entities : Option Json

/-- A reference to a `UserIntent` object: its `id()` plus its fields. -/
structure IntentRef where
  pyId : Nat
  val : UserIntent

/-- `UIAction` dataclass; fields are decoded oracle values. -/
structure UIAction where
  action : Json
  target : Option Json
  value : Option Json
  className : Option Json
  index : Option Json

/-- `TaskPlan` dataclass. -/
structure TaskPlan where
  task_id : String
  original_intent : IntentRef
  actions : List UIAction

/-- The screen-state dict, projected to the three keys the code reads
    with `.get` (absent key = `none`). -/
structure ScreenState where
  current_app : Option Json
  visible_texts : Option Json
  focused_element : Option Json

/-- `asdict(intent)` followed by JSON serialization: `None` becomes
    `null`. -/
def asdictIntent (i : UserIntent) : Json :=
  Json.obj [("intent", (i.intent).getD Json.null),
            ("target_app", (i.target_app).getD Json.null),
            ("entities", (i.entities).getD Json.null)]

/-- The reasoning-oracle gateway `llm.complete`, modelled as a
    deterministic map from prompt to response text or raised exception. -/
abbrev Oracle : Type := String → Except PyErr String

/-- Python list subscript `l[i]` with an `int` index: negative indices
    count from the end; out-of-range raises `IndexError`. -/
def pyListGet {α : Type} (l : List α) (i : Int) : Except PyErr α :=
  let j : Int := if i < 0 then i + l.length else i
  if j < 0 then Except.error PyErr.indexError
  else
    match l.get? j.toNat with
    | some a => Except.ok a
    | none => Except.error PyErr.indexError

example : pyListGet ["a", "b", "c"] (-1) = Except.ok "c" := rfl
example : pyListGet ["a", "b", "c"] 3 = Except.error PyErr.indexError := rfl
example : pyListGet ["a", "b", "c"] (-4) = Except.error PyErr.indexError := rfl

/-! ### `backend/services/claude_llm_client.py`: `ClaudeLLMClient`

Each operation is split into the prompt builder (the f-string), the
decoding step applied to the oracle response, and the composed operation
driving the `Oracle`.  A raised `anthropic` error inside `complete`
propagates out of these methods (nothing catches it), hence the
`Except` results. -/

namespace ClaudeLLM

/-- Fallback dict returned by `extract_intent` on decode failure
    (`confidence` is the Python float `0.0`, modelled as the integer 0). -/
def fallbackIntent : Json :=
  Json.obj [("intent", Json.str "unknown"), ("target_app", Json.null),
            ("confidence", Json.num 0), ("entities", Json.obj [])]

/-- Decoding step of `extract_intent` (lines 73-89): slice from the first
    opening brace to the last closing brace, `json.loads` it; any failure
    falls through to the fallback dict. -/
def extract_intent_decode (response : String) : Json :=
  let s := pyFind response.data '\x7b'
  let e := pyRfind response.data '\x7d' + 1
  if s ≥ 0 ∧ e > s then
    match jsonLoadsL (pySlice response.data s e) with
    | Except.ok v => v
    | Except.error _ => fallbackIntent
  else fallbackIntent

/-- Decoding step of `plan_actions` (lines 132-142): slice from the first
    to the last square bracket, `json.loads` it; any failure falls through
    to `return []`. -/
def plan_actions_decode (response : String) : Json :=
  let s := pyFind response.data '['
  let e := pyRfind response.data ']' + 1
  if s ≥ 0 ∧ e > s then
    match jsonLoadsL (pySlice response.data s e) with
    | Except.ok v => v
    | Except.error _ => Json.arr []
  else Json.arr []

/-- Decoding step of `replan_for_failure` (lines 194-203): identical
    bracket slicing with `return []` fallback. -/
def replan_for_failure_decode (response : String) : Json :=
  let s := pyFind response.data '['
  let e := pyRfind response.data ']' + 1
  if s ≥ 0 ∧ e > s then
    match jsonLoadsL (pySlice response.data s e) with
    | Except.ok v => v
    | Except.error _ => Json.arr []
  else Json.arr []

/-- The `replan_for_failure` prompt (lines 179-190); unlike the MCP
    variant, this prompt embeds the failed action and the failure
    reason. -/
def replan_for_failure_prompt (original_intent : PyDict) (failed_action : PyDict)
    (failure_reason : String) (screen : ScreenState) : String :=
  "An action failed during automation. Create an alternative plan.\n\nOriginal intent: "
    ++ pyStrOpt (pyDictGet original_intent "intent")
    ++ "\nFailed action: " ++ pyStrOpt (pyDictGet failed_action "action") ++ " "
    ++ pyStrOpt (pyOr (pyDictGet failed_action "target") (pyDictGet failed_action "value"))
    ++ "\nReason: " ++ failure_reason
    ++ "\n\nCurrent screen:\n- App: " ++ pyStrOpt screen.current_app
    ++ "\n- Visible: " ++ pyStr ((screen.visible_texts).getD (Json.arr []))
    ++ "\n\nAlternative approach? Return JSON action array:\n[\x7b\"action\": \"...\", \"target\": \"...\", \"value\": \"...\"\x7d, ...]"

/-- `replan_for_failure`: prompt the oracle, decode the array. -/
def replan_for_failure (oracle : Oracle) (original_intent : PyDict)
    (failed_action : PyDict) (failure_reason : String) (screen : ScreenState) :
    Except PyErr Json :=
  (oracle (replan_for_failure_prompt original_intent failed_action failure_reason
    screen)).map replan_for_failure_decode

/-- The `verify_action_success` prompt (lines 154-163). -/
def verify_success_prompt (action : PyDict) (expected_state : String)
    (screen : ScreenState) : String :=
  "Did this UI automation action succeed?\n\nAction: "
    ++ pyStrOpt (pyDictGet action "action") ++ " "
    ++ pyStrOpt (pyOr (pyOr (pyDictGet action "target") (pyDictGet action "value"))
        (some (Json.str "")))
    ++ "\nExpected result: " ++ expected_state
    ++ "\n\nActual screen after action:\n- App: " ++ pyStrOpt screen.current_app
    ++ "\n- Visible text: " ++ pyStr ((screen.visible_texts).getD (Json.arr []))
    ++ "\n\nRespond with only \"YES\" or \"NO\"."

/-- `verify_action_success`: true iff the response contains `"YES"` after
    upper-casing. -/
def verify_action_success (oracle : Oracle) (action : PyDict)
    (expected_state : String) (screen : ScreenState) : Except PyErr Bool :=
  (oracle (verify_success_prompt action expected_state screen)).map
    (fun r => strContains (pyUpper r) "YES")

end ClaudeLLM

/-- Fallback dict returned by `SyncClaudeLLMClient.extract_intent_sync`
    (line 239): unlike the async variant it has no `confidence` key. -/
def SyncClaudeLLM.fallbackIntent : Json :=
  Json.obj [("intent", Json.str "unknown"), ("target_app", Json.null),
            ("entities", Json.obj [])]

/-- Decoding step of `extract_intent_sync` (lines 231-239); note the
    guard checks only `json_start >= 0`, not `json_end > json_start`. -/
def SyncClaudeLLM.extract_intent_sync_decode (response : String) : Json :=
  let s := pyFind response.data '\x7b'
  let e := pyRfind response.data '\x7d' + 1
  if s ≥ 0 then
    match jsonLoadsL (pySlice response.data s e) with
    | Except.ok v => v
    | Except.error _ => SyncClaudeLLM.fallbackIntent
  else SyncClaudeLLM.fallbackIntent

/-! ### `mcp-server/src/android_vision_mcp.py` -/

namespace IntentParser

/-- The `parse_user_input` prompt (lines 60-72). -/
def parse_prompt (user_input : String) : String :=
  "Parse this user command into a structured intent:\n\nCommand: \"" ++ user_input
    ++ "\"\n\nReturn JSON with:\n- intent: what action (send_message, open_app, search, etc)\n- target_app: which app if applicable\n- entities: extracted data (contact names, messages, search terms, etc)\n\nExample:\n\x7b\"intent\": \"send_message\", \"target_app\": \"WhatsApp\", \"entities\": \x7b\"contact\": \"Mom\", \"message\": \"I\x27m late\"\x7d\x7d\n\nReturn ONLY valid JSON."

/-- Decoding step of `parse_user_input` (lines 76-85): `json.loads` the
    whole response; on `JSONDecodeError` the method raises
    `ValueError(f"Invalid intent format: {response}")` — it has no
    fallback. -/
def parse_decode (response : String) : Except PyErr UserIntent :=
  match jsonLoadsL response.data with
  | Except.ok (Json.obj fields) =>
    Except.ok ⟨pyDictGet fields "intent", pyDictGet fields "target_app",
      pyDictGet fields "entities"⟩
  | Except.ok _ => Except.error PyErr.attributeError
  | Except.error _ =>
    Except.error (PyErr.valueError ("Invalid intent format: " ++ response))

/-- `parse_user_input`: prompt, complete, decode.  A gateway exception
    propagates (only `JSONDecodeError` is caught). -/
def parse_user_input (oracle : Oracle) (user_input : String) :
    Except PyErr UserIntent :=
  (oracle (parse_prompt user_input)).bind parse_decode

end IntentParser

namespace TaskPlanner

/-- The `plan_task` prompt (lines 106-137), f-string layout exactly,
    including the worked example and the "Maximum 20 actions per task"
    instruction (which is the only appearance of the cap). -/
def plan_prompt (intent : UserIntent) (screen : ScreenState) : String :=
  "Given the user intent and current screen state, create a sequence of UI actions.\n\nUser Intent:\n"
    ++ jsonDumps2 (asdictIntent intent)
    ++ "\n\nCurrent Screen:\n- App: " ++ pyStrOpt screen.current_app
    ++ "\n- Visible text: " ++ pyStrOpt screen.visible_texts
    ++ "\n- Focused element: " ++ pyStrOpt screen.focused_element
    ++ "\n\nAvailable actions:\n- click: click on element by text\n- setText: set text in input field\n- scroll: scroll screen (up/down)\n- open_app: launch application by package\n- find_text: verify text exists\n- back: go back\n- home: go to home\n\nReturn JSON array of actions:\n[\n  \x7b\"action\": \"open_app\", \"value\": \"com.whatsapp\"\x7d,\n  \x7b\"action\": \"find_text\", \"target\": \"Mom\"\x7d,\n  \x7b\"action\": \"click\", \"target\": \"Mom\"\x7d,\n  \x7b\"action\": \"setText\", \"value\": \"I\x27m late\"\x7d\n]\n\nRequirements:\n- Be specific with text targets\n- Use scroll if element not found\n- Verify each major step\n- Maximum 20 actions per task"

/-- Python iteration over the decoded value (`for a in actions_data`):
    lists yield elements, dicts yield their keys, strings their
    characters; other values raise `TypeError`. -/
def pyIter (j : Json) : Except PyErr (List Json) :=
  match j with
  | Json.arr xs => Except.ok xs
  | Json.obj fs => Except.ok (fs.map (fun f => Json.str f.1))
  | Json.str s => Except.ok (s.data.map (fun c => Json.str (String.mk [c])))
  | _ => Except.error PyErr.typeError

/-- One step of the comprehension (lines 144-150):
    `UIAction(action=a["action"], target=a.get("target"), ...)`.
    A missing `"action"` key raises `KeyError`; a non-dict element raises
    `TypeError`. -/
def parseOneAction (a : Json) : Except PyErr UIAction :=
  match a with
  | Json.obj fields =>
    (match pyDictGet fields "action" with
     | some v =>
       Except.ok ⟨v, pyDictGet fields "target", pyDictGet fields "value",
         pyDictGet fields "className", pyDictGet fields "index"⟩
     | none => Except.error (PyErr.keyError "action"))
  | _ => Except.error PyErr.typeError

/-- The whole comprehension: left to right, stopping at the first raised
    exception, exactly like Python's list comprehension. -/
def parseUIActions : List Json → Except PyErr (List UIAction)
  | [] => Except.ok []
  | a :: rest =>
    match parseOneAction a with
    | Except.error e => Except.error e
    | Except.ok u =>
      match parseUIActions rest with
      | Except.error e => Except.error e
      | Except.ok us => Except.ok (u :: us)

/-- `plan_task` (lines 97-161): build the prompt, call the oracle, decode
    the array into `UIAction`s with no cap and no kind filtering, and
    stamp `task_id = f"task_{id(intent)}"`.  `JSONDecodeError`/`KeyError`
    become `ValueError`; other exceptions (including gateway errors and
    `TypeError`) propagate.  Returns the list of prompts sent to
    `llm.complete` alongside the Python result. -/
def plan_task (oracle : Oracle) (intent : IntentRef) (screen : ScreenState) :
    List String × Except PyErr TaskPlan :=
  let prompt := plan_prompt intent.val screen
  match oracle prompt with
  | Except.error e => ([prompt], Except.error e)
  | Except.ok response =>
    ([prompt],
      match jsonLoadsL response.data with
      | Except.error _ =>
        Except.error (PyErr.valueError ("Invalid task plan format: " ++ response))
      | Except.ok j =>
        match pyIter j with
        | Except.error e => Except.error e
        | Except.ok items =>
          match parseUIActions items with
          | Except.error (PyErr.keyError _) =>
            Except.error (PyErr.valueError ("Invalid task plan format: " ++ response))
          | Except.error e => Except.error e
          | Except.ok actions =>
            Except.ok ⟨"task_" ++ toString intent.pyId, intent, actions⟩)

end TaskPlanner

namespace VerificationLoop

/-- The `verify_action_result` prompt (lines 183-193). -/
def verification_prompt (action : UIAction) (expected_outcome : String)
    (screen : ScreenState) : String :=
  "Did this action achieve its goal?\n\nAction: " ++ pyStr action.action
    ++ "\nTarget: " ++ pyStrOpt (pyOr action.target action.value)
    ++ "\nExpected: " ++ expected_outcome
    ++ "\n\nActual Screen:\n- App: " ++ pyStrOpt screen.current_app
    ++ "\n- Visible: " ++ pyStrOpt screen.visible_texts
    ++ "\n\nAnswer YES or NO."

/-- `verify_action_result` (lines 174-196): true iff the response
    contains `"YES"` after upper-casing. -/
def verify_action_result (oracle : Oracle) (action : UIAction)
    (expected_outcome : String) (screen : ScreenState) : Except PyErr Bool :=
  (oracle (verification_prompt action expected_outcome screen)).map
    (fun r => strContains (pyUpper r) "YES")

/-- The alternative-plan prompt `replan_after_failure` constructs
    (lines 210-226).  It embeds the failed action and the failure reason —
    but the method never passes it to the oracle (see
    `replan_after_failure` below). -/
def replan_prompt (failed_action : UIAction) (failure_reason : String)
    (screen : ScreenState) (intent : UserIntent) : String :=
  "The action failed. Create an alternative plan.\n\nFailed action: "
    ++ pyStr failed_action.action ++ " ("
    ++ pyStrOpt (pyOr failed_action.target failed_action.value)
    ++ ")\nReason: " ++ failure_reason
    ++ "\n\nCurrent Screen:\n- App: " ++ pyStrOpt screen.current_app
    ++ "\n- Visible: " ++ pyStrOpt screen.visible_texts
    ++ "\n\nOriginal goal: " ++ pyStrOpt intent.intent
    ++ "\n\nAlternative approach to achieve the goal:\n- Try scrolling first?\n- Navigate differently?\n- Use different UI path?\n\nReturn new action sequence."

/-- `replan_after_failure` (lines 198-236): index the failed action
    (`IndexError` propagates — line 208 sits outside the `try`), build
    `replan_prompt` into a local that is never used, then call
    `self.planner.plan_task(original_plan.original_intent,
    current_screen_state)` — without the failure context.  Any exception
    from planning is swallowed into `None`. -/
def replan_after_failure (oracle : Oracle) (original_plan : TaskPlan)
    (failed_action_index : Int) (failure_reason : String)
    (screen : ScreenState) : List String × Except PyErr (Option TaskPlan) :=
  match pyListGet original_plan.actions failed_action_index with
  | Except.error e => ([], Except.error e)
  | Except.ok failed_action =>
    let _constructed_but_never_sent :=
      replan_prompt failed_action failure_reason screen original_plan.original_intent.val
    match TaskPlanner.plan_task oracle original_plan.original_intent screen with
    | (prompts, Except.ok p) => (prompts, Except.ok (some p))
    | (prompts, Except.error _) => (prompts, Except.ok none)

end VerificationLoop

namespace AndroidVisionMCP

/-- `handle_action_result` (lines 270-300): index the plan (line 280,
    before the status is read), then branch on `status`: `"SUCCESS"`
    returns the same plan, `"ELEMENT_NOT_FOUND"` replans with reason
    `"Element not found"`, anything else returns `None`.  No attempt
    counter, replan limit, or exhausted outcome exists. -/
def handle_action_result (oracle : Oracle) (task_plan : TaskPlan)
    (action_index : Int) (action_result : PyDict) (screen : ScreenState) :
    List String × Except PyErr (Option TaskPlan) :=
  match pyListGet task_plan.actions action_index with
  | Except.error e => ([], Except.error e)
  | Except.ok _ =>
    let status := pyDictGet action_result "status"
    if pyEqStr status "SUCCESS" then ([], Except.ok (some task_plan))
    else if pyEqStr status "ELEMENT_NOT_FOUND" then
      VerificationLoop.replan_after_failure oracle task_plan action_index
        "Element not found" screen
    else ([], Except.ok none)

/-- Harness for the supervision sequence (the caller loop is outside the
    sources): feed `handle_action_result` one `(index, result, screen)`
    triple at a time, continuing with the returned plan as long as one is
    returned, and collect every prompt sent to the oracle.  Every element
    of the collected list is one `plan_task` invocation, so its length is
    the number of replanning calls made along the sequence. -/
def supervise (oracle : Oracle) :
    TaskPlan → List (Int × PyDict × ScreenState) → List String
  | _, [] => []
  | plan, (i, r, s) :: rest =>
    match handle_action_result oracle plan i r s with
    | (log, Except.ok (some p2)) => log ++ supervise oracle p2 rest
    | (log, _) => log

end AndroidVisionMCP

/-! ### Concrete fixtures (the spec's worked scenario) -/

/-- Intent parsed from "Send a message to Mom saying I'll be late". -/
def intentMom : UserIntent :=
  ⟨some (Json.str "send_message"), some (Json.str "WhatsApp"),
   some (Json.obj [("contact", Json.str "Mom")])⟩

/-- The same intent object with Python identity 42. -/
def intentRefMom : IntentRef := ⟨42, intentMom⟩

/-- `{action: open_app, value: com.whatsapp}`. -/
def actOpenWhatsApp : UIAction :=
  ⟨Json.str "open_app", none, some (Json.str "com.whatsapp"), none, none⟩

/-- `{action: click, target: Mom}`. -/
def actClickMom : UIAction :=
  ⟨Json.str "click", some (Json.str "Mom"), none, none, none⟩

/-- Screen after the failed click: WhatsApp tabs, no "Mom". -/
def scrChats : ScreenState :=
  ⟨some (Json.str "com.whatsapp"),
   some (Json.arr [Json.str "Chats", Json.str "Status", Json.str "Calls"]), none⟩

/-- Launcher screen. -/
def scrLauncher : ScreenState :=
  ⟨some (Json.str "com.android.launcher"),
   some (Json.arr [Json.str "WhatsApp", Json.str "Messages", Json.str "Settings"]),
   none⟩

/-- `ActionResult` dicts by status. -/
def resENF : PyDict := [("status", Json.str "ELEMENT_NOT_FOUND")]

/-- `{"status": "FAILED"}`. -/
def resFailed : PyDict := [("status", Json.str "FAILED")]

/-- `{"status": "SUCCESS"}`. -/
def resSuccess : PyDict := [("status", Json.str "SUCCESS")]

/-- The initial two-action plan for the scenario (as `plan_task` would
    stamp it for the intent object with id 42). -/
def planMom : TaskPlan := ⟨"task_42", intentRefMom, [actOpenWhatsApp, actClickMom]⟩

/-- An oracle that always answers with a one-action JSON plan. -/
def oracleScroll : Oracle :=
  fun _ => Except.ok "[\x7b\"action\": \"scroll\", \"value\": \"down\"\x7d]"

/-- The plan `plan_task` builds from `oracleScroll`'s response. -/
def planScroll : TaskPlan :=
  ⟨"task_42", intentRefMom,
   [⟨Json.str "scroll", none, some (Json.str "down"), none, none⟩]⟩

example :
    TaskPlanner.plan_task oracleScroll intentRefMom scrChats =
      ([TaskPlanner.plan_prompt intentMom scrChats], Except.ok planScroll) := rfl

example :
    (AndroidVisionMCP.handle_action_result oracleScroll planMom 1 resENF scrChats).2 =
      Except.ok (some planScroll) := rfl

example :
    strContains (TaskPlanner.plan_prompt intentMom scrChats) "Element not found" = false := by
  decide

/-! ### Helper lemmas -/

/-- `listStartsWith` is the prefix relation. -/
theorem listStartsWith_iff (l p : List Char) :
    listStartsWith l p = true ↔ ∃ t, l = p ++ t := by
  induction p generalizing l with
  | nil => simp [listStartsWith]
  | cons d p ih =>
    cases l with
    | nil => simp [listStartsWith]
    | cons c l' =>
      simp only [listStartsWith, Bool.and_eq_true, beq_iff_eq, ih, List.cons_append,
        List.cons.injEq]
      constructor
      · rintro ⟨rfl, t, rfl⟩; exact ⟨t, rfl, rfl⟩
      · rintro ⟨t, rfl, rfl⟩; exact ⟨rfl, t, rfl⟩

/-- `listContainsSub` is the contiguous-substring relation. -/
theorem listContainsSub_iff (l p : List Char) :
    listContainsSub l p = true ↔ ∃ a b, l = a ++ p ++ b := by
  induction l with
  | nil =>
    simp only [listContainsSub, List.isEmpty_iff]
    constructor
    · rintro rfl; exact ⟨[], [], rfl⟩
    · rintro ⟨a, b, hab⟩
      rcases List.append_eq_nil.mp hab.symm with ⟨h1, h2⟩
      exact (List.append_eq_nil.mp h1).2
  | cons c l' ih =>
    simp only [listContainsSub, Bool.or_eq_true, listStartsWith_iff, ih]
    constructor
    · rintro (⟨t, ht⟩ | ⟨a, b, hab⟩)
      · exact ⟨[], t, by simp [ht]⟩
      · exact ⟨c :: a, b, by simp [hab]⟩
    · rintro ⟨a, b, hab⟩
      cases a with
      | nil => exact Or.inl ⟨b, by simpa using hab⟩
      | cons x a' =>
        rw [List.cons_append, List.cons_append] at hab
        injection hab with _ h2
        exact Or.inr ⟨a', b, h2⟩

/-- Python `p in s` agrees with the substring decomposition. -/
theorem strContains_iff (s p : String) :
    strContains s p = true ↔ ∃ a b, s.data = a ++ p.data ++ b :=
  listContainsSub_iff s.data p.data

/-- `pyListGet` raises `IndexError` exactly outside `[-len, len)`. -/
theorem pyListGet_indexError_iff {α : Type} (l : List α) (i : Int) :
    pyListGet l i = Except.error PyErr.indexError ↔
      ((l.length : Int) ≤ i ∨ i < -(l.length : Int)) := by
  unfold pyListGet
  by_cases hneg : i < 0
  · simp only [if_pos hneg]
    by_cases hj : i + (l.length : Int) < 0
    · simp only [if_pos hj]
      constructor
      · intro _; right; omega
      · intro _; trivial
    · simp only [if_neg hj]
      have hlt : (i + (l.length : Int)).toNat < l.length := by omega
      cases hget : l.get? (i + (l.length : Int)).toNat with
      | none =>
        exact absurd (List.get?_eq_none.mp hget) (by omega)
      | some a =>
        constructor
        · intro h; exact Except.noConfusion h
        · intro h; exfalso; omega
  · simp only [if_neg hneg]
    cases hget : l.get? i.toNat with
    | none =>
      have := List.get?_eq_none.mp hget
      constructor
      · intro _; left; omega
      · intro _; trivial
    | some a =>
      rcases List.get?_eq_some.mp hget with ⟨hlt, _⟩
      constructor
      · intro h; exact Except.noConfusion h
      · intro h; exfalso; omega

/-- A character absent from a list is not found. -/
theorem pyFindAux_eq_none (c : Char) (l : List Char) (h : ∀ d ∈ l, d ≠ c) :
    pyFindAux c l = none := by
  induction l with
  | nil => rfl
  | cons d l ih =>
    have hd : ¬ ((d == c) = true) := by
      simp only [beq_iff_eq]
      exact h d (List.mem_cons_self d l)
    simp only [pyFindAux, if_neg hd,
      ih (fun e he => h e (List.mem_cons_of_mem d he)), Option.map_none']

/-- Finding in an append whose left part misses the character. -/
theorem pyFindAux_append_none (c : Char) (l1 l2 : List Char)
    (h : pyFindAux c l1 = none) :
    pyFindAux c (l1 ++ l2) = (pyFindAux c l2).map (· + l1.length) := by
  induction l1 with
  | nil =>
    simp only [List.nil_append, List.length_nil]
    cases pyFindAux c l2 <;> simp
  | cons d l ih =>
    by_cases hd : (d == c) = true
    · exfalso; unfold pyFindAux at h; rw [if_pos hd] at h; cases h
    · have h2 : pyFindAux c l = none := by
        unfold pyFindAux at h
        rw [if_neg hd] at h
        rcases ho : pyFindAux c l with _ | n
        · rfl
        · rw [ho] at h; cases h
      simp only [List.cons_append, pyFindAux, if_neg hd, List.append_eq, ih h2,
        List.length_cons]
      cases pyFindAux c l2 with
      | none => rfl
      | some n =>
        simp only [Option.map_some', Option.some.injEq]
        omega

/-- First `{` of `pre ++ obj ++ post` when `pre` is brace-free and `obj`
    opens with one. -/
theorem pyFind_prose (pre obj post : List Char)
    (hpre : ∀ d ∈ pre, d ≠ '\x7b')
    (hhead : obj.head? = some '\x7b') :
    pyFind (pre ++ obj ++ post) '\x7b' = (pre.length : Int) := by
  cases obj with
  | nil => cases hhead
  | cons c o =>
    have hc : c = '\x7b' := by simpa using hhead
    subst hc
    unfold pyFind
    rw [List.append_assoc,
      pyFindAux_append_none _ _ _ (pyFindAux_eq_none _ _ hpre)]
    simp [pyFindAux]

/-- Last `}` of `pre ++ obj ++ post` when `post` is brace-free and `obj`
    closes with one. -/
theorem pyRfind_prose (pre obj post : List Char)
    (hpost : ∀ d ∈ post, d ≠ '\x7d')
    (hlast : obj.getLast? = some '\x7d') :
    pyRfind (pre ++ obj ++ post) '\x7d' =
      (pre.length : Int) + obj.length - 1 := by
  have hrev : obj.reverse.head? = some '\x7d' := by
    rw [List.head?_reverse]; exact hlast
  rcases hor : obj.reverse with _ | ⟨c, r⟩
  · rw [hor] at hrev; cases hrev
  · have hc : c = '\x7d' := by rw [hor] at hrev; simpa using hrev
    subst hc
    unfold pyRfind
    have hrearr : (pre ++ obj ++ post).reverse =
        post.reverse ++ (obj.reverse ++ pre.reverse) := by
      simp [List.reverse_append]
    rw [hrearr,
      pyFindAux_append_none _ _ _
        (pyFindAux_eq_none _ _ (fun d hd => hpost d (List.mem_reverse.mp hd))),
      hor]
    simp only [pyFindAux, List.cons_append, if_pos (by rfl : ('\x7d' == '\x7d') = true)]
    simp only [Option.map_some', List.length_append, List.length_reverse]
    have hobj : obj.length ≥ 1 := by
      cases obj with
      | nil => cases hlast
      | cons _ _ => simp
    omega

/-- `parseUIActions` preserves the element count: no truncation. -/
theorem parseUIActions_length (items : List Json) (acts : List UIAction)
    (h : TaskPlanner.parseUIActions items = Except.ok acts) :
    acts.length = items.length := by
  induction items generalizing acts with
  | nil =>
    unfold TaskPlanner.parseUIActions at h
    injection h with h'
    subst h'
    rfl
  | cons a rest ih =>
    unfold TaskPlanner.parseUIActions at h
    cases hpa : TaskPlanner.parseOneAction a with
    | error e => rw [hpa] at h; cases h
    | ok u =>
      rw [hpa] at h
      cases hrest : TaskPlanner.parseUIActions rest with
      | error e => rw [hrest] at h; cases h
      | ok us =>
        rw [hrest] at h
        injection h with h'
        subst h'
        simp [List.length_cons, ih us hrest]

/-- `plan_task` always sends exactly the one generic planning prompt. -/
theorem plan_task_prompts (oracle : Oracle) (intent : IntentRef)
    (scr : ScreenState) :
    (TaskPlanner.plan_task oracle intent scr).1 =
      [TaskPlanner.plan_prompt intent.val scr] := by
  cases h : oracle (TaskPlanner.plan_prompt intent.val scr) <;>
    simp [TaskPlanner.plan_task, h]

/-- When `plan_task` returns a plan, its `task_id` is derived from the
    intent object's Python identity and the plan holds that same intent
    reference. -/
theorem plan_task_ok_inv (oracle : Oracle) (intent : IntentRef)
    (scr : ScreenState) (p : TaskPlan)
    (h : (TaskPlanner.plan_task oracle intent scr).2 = Except.ok p) :
    p.task_id = "task_" ++ toString intent.pyId ∧ p.original_intent = intent := by
  simp only [TaskPlanner.plan_task] at h
  split at h
  · cases h
  · split at h
    · cases h
    · split at h
      · cases h
      · split at h
        · cases h
        · cases h
        · injection h with h'
          subst h'
          exact ⟨rfl, rfl⟩

/-- `replan_after_failure` on a valid index: the only prompt sent is the
    generic planning prompt for the original intent and current screen,
    and the call returns (it swallows planning exceptions into `None`). -/
theorem replan_log_and_ok (oracle : Oracle) (plan : TaskPlan) (i : Int)
    (reason : String) (scr : ScreenState) (a : UIAction)
    (hidx : pyListGet plan.actions i = Except.ok a) :
    (VerificationLoop.replan_after_failure oracle plan i reason scr).1 =
      [TaskPlanner.plan_prompt plan.original_intent.val scr]
    ∧ ∃ o, (VerificationLoop.replan_after_failure oracle plan i reason scr).2 =
        Except.ok o := by
  unfold VerificationLoop.replan_after_failure
  rw [hidx]
  rcases hpt : TaskPlanner.plan_task oracle plan.original_intent scr with ⟨prompts, r⟩
  have hp : prompts = [TaskPlanner.plan_prompt plan.original_intent.val scr] := by
    have h1 := plan_task_prompts oracle plan.original_intent scr
    rw [hpt] at h1
    exact h1
  cases r with
  | ok p => exact ⟨hp, some p, rfl⟩
  | error e => exact ⟨hp, none, rfl⟩

/-- `pyListGet` either raises `IndexError` or returns an element. -/
theorem pyListGet_ok_or_indexError {α : Type} (l : List α) (i : Int) :
    (∃ a, pyListGet l i = Except.ok a) ∨
      pyListGet l i = Except.error PyErr.indexError := by
  unfold pyListGet
  by_cases h0 : (if i < 0 then i + (l.length : Int) else i) < 0
  · rw [if_pos h0]; exact Or.inr rfl
  · rw [if_neg h0]
    cases hget : l.get? (if i < 0 then i + (l.length : Int) else i).toNat with
    | none => exact Or.inr rfl
    | some a => exact Or.inl ⟨a, rfl⟩

/-- With a valid index, `handle_action_result` never raises: every branch
    returns a value (the replanning branch swallows exceptions). -/
theorem handle_ok_of_idx_ok (oracle : Oracle) (plan : TaskPlan) (i : Int)
    (res : PyDict) (scr : ScreenState) (a : UIAction)
    (hidx : pyListGet plan.actions i = Except.ok a) :
    ∃ o, (AndroidVisionMCP.handle_action_result oracle plan i res scr).2 =
      Except.ok o := by
  unfold AndroidVisionMCP.handle_action_result
  rw [hidx]
  dsimp only
  by_cases h1 : pyEqStr (pyDictGet res "status") "SUCCESS" = true
  · rw [if_pos h1]; exact ⟨some plan, rfl⟩
  · rw [if_neg h1]
    by_cases h2 : pyEqStr (pyDictGet res "status") "ELEMENT_NOT_FOUND" = true
    · rw [if_pos h2]
      exact (replan_log_and_ok oracle plan i "Element not found" scr a hidx).2
    · rw [if_neg h2]; exact ⟨none, rfl⟩

/-- On an `ELEMENT_NOT_FOUND` result with a valid index, the handler sends
    exactly one prompt: the generic planning prompt for the original
    intent and the current screen. -/
theorem handle_enf_log (oracle : Oracle) (plan : TaskPlan) (i : Int)
    (res : PyDict) (scr : ScreenState) (a : UIAction)
    (hidx : pyListGet plan.actions i = Except.ok a)
    (hst : pyDictGet res "status" = some (Json.str "ELEMENT_NOT_FOUND")) :
    (AndroidVisionMCP.handle_action_result oracle plan i res scr).1 =
      [TaskPlanner.plan_prompt plan.original_intent.val scr] := by
  unfold AndroidVisionMCP.handle_action_result
  rw [hidx]
  dsimp only
  rw [hst]
  rw [if_neg (by decide), if_pos (by decide)]
  exact (replan_log_and_ok oracle plan i "Element not found" scr a hidx).1

/-- On a `FAILED` result with a valid index, the handler returns `None`
    and sends no prompt at all. -/
theorem handle_failed_none (oracle : Oracle) (plan : TaskPlan) (i : Int)
    (res : PyDict) (scr : ScreenState) (a : UIAction)
    (hidx : pyListGet plan.actions i = Except.ok a)
    (hst : pyDictGet res "status" = some (Json.str "FAILED")) :
    AndroidVisionMCP.handle_action_result oracle plan i res scr =
      ([], Except.ok none) := by
  unfold AndroidVisionMCP.handle_action_result
  rw [hidx]
  dsimp only
  rw [hst]
  rw [if_neg (by decide), if_neg (by decide)]

/-! ### Claims -/

/-- C10 counterexample: the handler is also well-defined at the negative
    index `-1` (Python aliases it to the last action), so "well-defined
    only under `0 <= action_index < len(plan.actions)`" is false as
    stated: at `action_index = -1` with a `SUCCESS` result the call
    returns an outcome instead of raising. -/
theorem c10_counterexample :
    AndroidVisionMCP.handle_action_result oracleScroll planMom (-1) resSuccess
        scrLauncher = ([], Except.ok (some planMom))
    ∧ ¬ ((0 : Int) ≤ -1) :=
  ⟨rfl, by decide⟩

/-- C10 amended: `handle_action_result` and `replan_after_failure` index
    `plan.actions[action_index]` with no bounds check, so they raise
    `IndexError` — before the result status is examined, and for every
    status — exactly when `action_index ≥ len(plan.actions)` or
    `action_index < -len(plan.actions)`; indices in `[-len, len)` are
    well-defined, negative ones aliasing positions from the end per
    Python semantics. -/
theorem c10_index_error_characterisation (oracle : Oracle) (plan : TaskPlan)
    (i : Int) (res : PyDict) (scr : ScreenState) (reason : String) :
    ((AndroidVisionMCP.handle_action_result oracle plan i res scr).2
        = Except.error PyErr.indexError ↔
      ((plan.actions.length : Int) ≤ i ∨ i < -(plan.actions.length : Int)))
    ∧ ((VerificationLoop.replan_after_failure oracle plan i reason scr).2
        = Except.error PyErr.indexError ↔
      ((plan.actions.length : Int) ≤ i ∨ i < -(plan.actions.length : Int))) := by
  rcases pyListGet_ok_or_indexError plan.actions i with ⟨a, ha⟩ | ha
  · have hrhs : ¬ ((plan.actions.length : Int) ≤ i ∨
        i < -(plan.actions.length : Int)) := by
      intro hr
      rw [(pyListGet_indexError_iff plan.actions i).mpr hr] at ha
      cases ha
    refine ⟨⟨?_, fun hr => absurd hr hrhs⟩, ⟨?_, fun hr => absurd hr hrhs⟩⟩
    · intro h2
      rcases handle_ok_of_idx_ok oracle plan i res scr a ha with ⟨o, ho⟩
      rw [ho] at h2
      cases h2
    · intro h2
      rcases (replan_log_and_ok oracle plan i reason scr a ha).2 with ⟨o, ho⟩
      rw [ho] at h2
      cases h2
  · have hcond := (pyListGet_indexError_iff plan.actions i).mp ha
    refine ⟨⟨fun _ => hcond, fun _ => ?_⟩, ⟨fun _ => hcond, fun _ => ?_⟩⟩
    · unfold AndroidVisionMCP.handle_action_result
      rw [ha]
    · unfold VerificationLoop.replan_after_failure
      rw [ha]

/-- C8: both verifiers return `ok true` precisely when the upper-cased
    oracle response contains the substring `"YES"`, and the empty
    response verifies to `false` (fail-closed). -/
theorem c8_verify_affirmative_iff (r : String) (a : UIAction) (ad : PyDict)
    (e : String) (s : ScreenState) :
    (VerificationLoop.verify_action_result (fun _ => Except.ok r) a e s
        = Except.ok true ↔ ∃ x y, (pyUpper r).data = x ++ "YES".data ++ y)
    ∧ (ClaudeLLM.verify_action_success (fun _ => Except.ok r) ad e s
        = Except.ok true ↔ ∃ x y, (pyUpper r).data = x ++ "YES".data ++ y)
    ∧ VerificationLoop.verify_action_result (fun _ => Except.ok "") a e s
        = Except.ok false := by
  refine ⟨?_, ?_, rfl⟩
  · show Except.ok (strContains (pyUpper r) "YES") = Except.ok true ↔ _
    constructor
    · intro h
      injection h with h'
      exact (strContains_iff _ _).mp h'
    · intro h
      exact congrArg Except.ok ((strContains_iff _ _).mpr h)
  · show Except.ok (strContains (pyUpper r) "YES") = Except.ok true ↔ _
    constructor
    · intro h
      injection h with h'
      exact (strContains_iff _ _).mp h'
    · intro h
      exact congrArg Except.ok ((strContains_iff _ _).mpr h)

/-- C1 counterexample: with `maxReplans = 3` (the claimed default), a run
    of four consecutive `ELEMENT_NOT_FOUND` results makes four replanning
    calls to the planner — the supervisor performs an (N+1)th replan and
    never produces any `Exhausted` outcome (no such outcome exists in
    `handle_action_result`'s return type). -/
theorem c1_counterexample :
    (AndroidVisionMCP.supervise oracleScroll planMom
        (List.replicate 4 ((0 : Int), resENF, scrChats))).length = 4
    ∧ ¬ ((4 : Nat) ≤ 3) := by
  exact ⟨rfl, by decide⟩

/-- C1 amended: `handle_action_result` keeps no replan counter and has no
    `maxReplans` option or `Exhausted` outcome; every call that sees an
    `ELEMENT_NOT_FOUND` result (at a valid index) invokes the planner
    exactly once, regardless of how many failures preceded it, so `k`
    consecutive `ELEMENT_NOT_FOUND` results always cause `k` replanning
    calls. -/
theorem c1_every_enf_replans_again (oracle : Oracle) (plan : TaskPlan)
    (i : Int) (res : PyDict) (scr : ScreenState) (a : UIAction)
    (hidx : pyListGet plan.actions i = Except.ok a)
    (hst : pyDictGet res "status" = some (Json.str "ELEMENT_NOT_FOUND")) :
    ((AndroidVisionMCP.handle_action_result oracle plan i res scr).1).length
      = 1 := by
  rw [handle_enf_log oracle plan i res scr a hidx hst]
  rfl

/-- C1 witness: the amended theorem evaluated at the scenario fixtures. -/
theorem c1_every_enf_replans_again_witness :
    pyListGet planMom.actions 1 = Except.ok actClickMom
    ∧ pyDictGet resENF "status" = some (Json.str "ELEMENT_NOT_FOUND")
    ∧ ((AndroidVisionMCP.handle_action_result oracleScroll planMom 1 resENF
        scrLauncher).1).length = 1 :=
  ⟨rfl, rfl,
   c1_every_enf_replans_again oracleScroll planMom 1 resENF scrLauncher
     actClickMom rfl rfl⟩

/-- C2 counterexample: an `ActionResult` with `status = "FAILED"` does not
    trigger any planner invocation — the handler returns `None` with an
    empty prompt log, unlike the claimed identical treatment of `FAILED`
    and `ELEMENT_NOT_FOUND`. -/
theorem c2_counterexample :
    AndroidVisionMCP.handle_action_result oracleScroll planMom 0 resFailed
      scrChats = ([], Except.ok none) := rfl

/-- C2 amended: only `ELEMENT_NOT_FOUND` triggers replanning — a `FAILED`
    result returns `None` without invoking the planner — and the
    replanning invocation passes the planner only the original intent and
    the current screen: the one prompt sent is the generic planning
    prompt, which carries no failed-action/reason failure context
    argument. -/
theorem c2_failed_ignored_and_no_failure_context (oracle : Oracle)
    (plan : TaskPlan) (i : Int) (res : PyDict) (scr : ScreenState)
    (a : UIAction) (hidx : pyListGet plan.actions i = Except.ok a) :
    (pyDictGet res "status" = some (Json.str "FAILED") →
      AndroidVisionMCP.handle_action_result oracle plan i res scr
        = ([], Except.ok none))
    ∧ (pyDictGet res "status" = some (Json.str "ELEMENT_NOT_FOUND") →
      (AndroidVisionMCP.handle_action_result oracle plan i res scr).1
        = [TaskPlanner.plan_prompt plan.original_intent.val scr]) :=
  ⟨fun hst => handle_failed_none oracle plan i res scr a hidx hst,
   fun hst => handle_enf_log oracle plan i res scr a hidx hst⟩

/-- C2 witness: both branches of the amended theorem at concrete
    fixtures. -/
theorem c2_failed_ignored_and_no_failure_context_witness :
    (AndroidVisionMCP.handle_action_result oracleScroll planScroll 0 resFailed
        scrLauncher = ([], Except.ok none))
    ∧ (AndroidVisionMCP.handle_action_result oracleScroll planScroll 0 resENF
        scrLauncher).1 = [TaskPlanner.plan_prompt intentMom scrLauncher] :=
  ⟨(c2_failed_ignored_and_no_failure_context oracleScroll planScroll 0
      resFailed scrLauncher ⟨Json.str "scroll", none, some (Json.str "down"),
        none, none⟩ rfl).1 rfl,
   (c2_failed_ignored_and_no_failure_context oracleScroll planScroll 0
      resENF scrLauncher ⟨Json.str "scroll", none, some (Json.str "down"),
        none, none⟩ rfl).2 rfl⟩

/-- C3 (code bug, spec scenario 2): on the failed `click "Mom"` action
    with result `ELEMENT_NOT_FOUND`, the only prompt actually passed to
    `complete()` is the generic `plan_task` planning prompt, and that
    prompt does not contain the failure reason `"Element not found"`; the
    failure-context prompt that `replan_after_failure` constructs — which
    does contain both `"Mom"` and `"Element not found"` — is assigned to a
    local variable and never sent. -/
theorem c3_failure_reason_never_reaches_oracle :
    (AndroidVisionMCP.handle_action_result oracleScroll planMom 1 resENF
        scrChats).1 = [TaskPlanner.plan_prompt intentMom scrChats]
    ∧ strContains (TaskPlanner.plan_prompt intentMom scrChats)
        "Element not found" = false
    ∧ strContains (VerificationLoop.replan_prompt actClickMom
        "Element not found" scrChats intentMom) "Element not found" = true
    ∧ strContains (VerificationLoop.replan_prompt actClickMom
        "Element not found" scrChats intentMom) "Mom" = true := by
  exact ⟨rfl, by decide, by decide, by decide⟩

/-- Oracle response carrying 21 actions. -/
def resp21 : String :=
  "[" ++ String.intercalate ", "
    (List.replicate 21 "\x7b\"action\": \"back\"\x7d") ++ "]"

/-- C4 counterexample: a decoded array of 21 actions is forwarded whole —
    neither `plan_actions` nor `plan_task` truncates to 20 (no cap exists
    anywhere in the code; the limit appears only as prompt text). -/
theorem c4_counterexample :
    ClaudeLLM.plan_actions_decode resp21
      = Json.arr (List.replicate 21 (Json.obj [("action", Json.str "back")]))
    ∧ (List.replicate 21 (Json.obj [("action", Json.str "back")])).length = 21
    ∧ ¬ ((21 : Nat) ≤ 20)
    ∧ (TaskPlanner.plan_task (fun _ => Except.ok resp21) intentRefMom
        scrLauncher).2 = Except.ok ⟨"task_42", intentRefMom,
          List.replicate 21 ⟨Json.str "back", none, none, none, none⟩⟩ :=
  ⟨rfl, rfl, by decide, rfl⟩

/-- C4 amended: the planner never truncates and never rejects for length:
    whatever array the decode step finds is returned verbatim by
    `plan_actions`, and the `plan_task` comprehension maps it
    one-to-one, so the output length always equals the decoded length —
    also beyond 20. -/
theorem c4_no_cap_length_preserved (r : String) (items : List Json)
    (hfind : 0 ≤ pyFind r.data '[')
    (hlt : pyFind r.data '[' < pyRfind r.data ']' + 1)
    (hparse : jsonLoadsL (pySlice r.data (pyFind r.data '[')
        (pyRfind r.data ']' + 1)) = Except.ok (Json.arr items)) :
    ClaudeLLM.plan_actions_decode r = Json.arr items
    ∧ ∀ acts, TaskPlanner.parseUIActions items = Except.ok acts →
        acts.length = items.length := by
  constructor
  · unfold ClaudeLLM.plan_actions_decode
    dsimp only
    rw [if_pos ⟨hfind, hlt⟩, hparse]
  · exact fun acts h => parseUIActions_length items acts h

/-- C4 witness: a 2-action array wrapped in prose decodes whole and the
    comprehension preserves its length. -/
theorem c4_no_cap_length_preserved_witness :
    ClaudeLLM.plan_actions_decode
        "ok [\x7b\"action\": \"back\"\x7d, \x7b\"action\": \"home\"\x7d] done"
      = Json.arr [Json.obj [("action", Json.str "back")],
          Json.obj [("action", Json.str "home")]]
    ∧ ∀ acts, TaskPlanner.parseUIActions
        [Json.obj [("action", Json.str "back")],
         Json.obj [("action", Json.str "home")]] = Except.ok acts →
        acts.length = 2 :=
  c4_no_cap_length_preserved
    "ok [\x7b\"action\": \"back\"\x7d, \x7b\"action\": \"home\"\x7d] done"
    [Json.obj [("action", Json.str "back")],
     Json.obj [("action", Json.str "home")]]
    (by decide) (by decide) rfl

/-- C6 counterexample: on the oracle response `"I cannot help with that."`
    (no JSON anywhere), `IntentParser.parse_user_input` does not return a
    fallback — it raises
    `ValueError("Invalid intent format: I cannot help with that.")` to its
    caller. -/
theorem c6_counterexample :
    IntentParser.parse_decode "I cannot help with that."
      = Except.error (PyErr.valueError
          "Invalid intent format: I cannot help with that.") := rfl

/-- C6 amended: on an undecodable response the backend resolvers fall
    back — `extract_intent` to
    `{intent: unknown, target_app: null, confidence: 0, entities: {}}` and
    `extract_intent_sync` to the same dict without the `confidence` key —
    but `IntentParser.parse_user_input` raises `ValueError` instead of
    returning any fallback. -/
theorem c6_fallbacks_and_parser_raises :
    ClaudeLLM.extract_intent_decode "I cannot help with that."
      = ClaudeLLM.fallbackIntent
    ∧ SyncClaudeLLM.extract_intent_sync_decode "I cannot help with that."
      = SyncClaudeLLM.fallbackIntent
    ∧ IntentParser.parse_decode "I cannot help with that."
      = Except.error (PyErr.valueError
          "Invalid intent format: I cannot help with that.") :=
  ⟨rfl, rfl, rfl⟩

/-- The closed action vocabulary named by the spec (§3), for comparison
    with what the code forwards. -/
def specActionVocab : List String :=
  ["open_app", "click", "setText", "scroll", "find_text", "wait", "back",
   "home"]

/-- C7 counterexample: an element with the unrecognized kind `"explode"`
    is not dropped — `plan_task` forwards it into the returned plan and
    `plan_actions` returns it verbatim; no warning path or membership
    check exists. -/
theorem c7_counterexample :
    (TaskPlanner.plan_task
        (fun _ => Except.ok
          "[\x7b\"action\": \"explode\", \"target\": \"Earth\"\x7d]")
        intentRefMom scrLauncher).2
      = Except.ok ⟨"task_42", intentRefMom,
          [⟨Json.str "explode", some (Json.str "Earth"), none, none, none⟩]⟩
    ∧ specActionVocab.contains "explode" = false
    ∧ ClaudeLLM.plan_actions_decode
        "[\x7b\"action\": \"explode\", \"target\": \"Earth\"\x7d]"
      = Json.arr [Json.obj [("action", Json.str "explode"),
          ("target", Json.str "Earth")]] :=
  ⟨rfl, by decide, rfl⟩

/-- C7 amended: the comprehension accepts every element that has an
    `"action"` key and forwards its kind unchanged, whatever string it
    is — there is no vocabulary membership test, so unrecognized kinds
    are silently accepted rather than dropped. -/
theorem c7_any_kind_forwarded (k : String) (fields : PyDict)
    (h : pyDictGet fields "action" = some (Json.str k)) :
    ∃ u : UIAction, TaskPlanner.parseOneAction (Json.obj fields)
      = Except.ok u ∧ u.action = Json.str k := by
  unfold TaskPlanner.parseOneAction
  dsimp only
  rw [h]
  exact ⟨_, rfl, rfl⟩

/-- C7 witness: the amended theorem at kind `"explode"`. -/
theorem c7_any_kind_forwarded_witness :
    ∃ u : UIAction, TaskPlanner.parseOneAction
        (Json.obj [("action", Json.str "explode")])
      = Except.ok u ∧ u.action = Json.str "explode" :=
  c7_any_kind_forwarded "explode" [("action", Json.str "explode")] rfl

/-- C9 counterexample: two distinct plan-creation calls yield the same
    `task_id`.  The first `plan_task` call creates `planScroll` with
    `task_id = "task_42"`; feeding an `ELEMENT_NOT_FOUND` result to the
    supervisor triggers a second `plan_task` call for the same intent
    object (passed by reference), which again yields
    `task_id = "task_42"`. -/
theorem c9_counterexample :
    (TaskPlanner.plan_task oracleScroll intentRefMom scrLauncher).2
      = Except.ok planScroll
    ∧ (AndroidVisionMCP.handle_action_result oracleScroll planScroll 0 resENF
        scrChats).2 = Except.ok (some planScroll)
    ∧ planScroll.task_id = "task_42" :=
  ⟨rfl, rfl, rfl⟩

/-- C9 amended: `task_id` is `f"task_{id(intent)}"`, and replanning passes
    the stored intent object itself, so every plan the handler produces
    for a plan created by `plan_task` carries the original plan's
    `task_id` — task_ids are not unique across plan-creation calls. -/
theorem c9_replanned_plan_reuses_task_id (o1 o2 : Oracle) (intent : IntentRef)
    (s1 s2 : ScreenState) (i : Int) (res : PyDict) (p p2 : TaskPlan)
    (h1 : (TaskPlanner.plan_task o1 intent s1).2 = Except.ok p)
    (h2 : (AndroidVisionMCP.handle_action_result o2 p i res s2).2
        = Except.ok (some p2)) :
    p2.task_id = p.task_id := by
  rcases plan_task_ok_inv o1 intent s1 p h1 with ⟨hid, hint⟩
  unfold AndroidVisionMCP.handle_action_result at h2
  cases hidx : pyListGet p.actions i with
  | error e => rw [hidx] at h2; cases h2
  | ok a =>
    rw [hidx] at h2
    dsimp only at h2
    by_cases hs1 : pyEqStr (pyDictGet res "status") "SUCCESS" = true
    · rw [if_pos hs1] at h2
      injection h2 with h'
      injection h' with h''
      rw [← h'']
    · rw [if_neg hs1] at h2
      by_cases hs2 : pyEqStr (pyDictGet res "status") "ELEMENT_NOT_FOUND" = true
      · rw [if_pos hs2] at h2
        unfold VerificationLoop.replan_after_failure at h2
        rw [hidx] at h2
        dsimp only at h2
        rcases hpt : TaskPlanner.plan_task o2 p.original_intent s2
          with ⟨prompts, r⟩
        rw [hpt] at h2
        cases r with
        | error e => dsimp only at h2; injection h2 with h'; cases h'
        | ok q =>
          dsimp only at h2
          injection h2 with h'
          injection h' with h''
          have hq := plan_task_ok_inv o2 p.original_intent s2 q
            (by rw [hpt])
          rw [← h'', hq.1, hid, hint]
      · rw [if_neg hs2] at h2
        injection h2 with h'
        cases h'

/-- C9 witness: the amended theorem at the scenario fixtures; both
    creation calls produce `"task_42"`. -/
theorem c9_replanned_plan_reuses_task_id_witness :
    (TaskPlanner.plan_task oracleScroll intentRefMom scrLauncher).2
      = Except.ok planScroll
    ∧ planScroll.task_id = planScroll.task_id :=
  ⟨rfl,
   c9_replanned_plan_reuses_task_id oracleScroll oracleScroll intentRefMom
     scrLauncher scrChats 0 resENF planScroll planScroll rfl rfl⟩

/-- Prose response containing two JSON objects. -/
def prose2 : String := "before \x7b\"a\": 1\x7d mid \x7b\"b\": 2\x7d after"

/-- C5 counterexample: `prose2` contains the syntactically valid JSON
    object `{"a": 1}` embedded in prose, yet the decoder — which slices
    from the first opening brace to the *last* closing brace, not the
    first balanced value — feeds `json.loads` the unparsable span
    `{"a": 1} mid {"b": 2}` and falls back instead of returning the
    object parsed in isolation. -/
theorem c5_counterexample :
    jsonLoads "\x7b\"a\": 1\x7d" = Except.ok (Json.obj [("a", Json.num 1)])
    ∧ prose2 = "before " ++ "\x7b\"a\": 1\x7d" ++ " mid \x7b\"b\": 2\x7d after"
    ∧ ClaudeLLM.extract_intent_decode prose2 = ClaudeLLM.fallbackIntent
    ∧ ClaudeLLM.fallbackIntent ≠ Json.obj [("a", Json.num 1)] := by
  refine ⟨rfl, rfl, rfl, ?_⟩
  intro hcontra
  have hlen := congrArg
    (fun j => match j with | Json.obj fs => fs.length | _ => 0) hcontra
  simp [ClaudeLLM.fallbackIntent] at hlen

/-- C5 amended: the decoder slices from the first `{` to the last `}` and
    succeeds exactly when that whole slice is valid JSON; consequently it
    returns the embedded object parsed in isolation whenever the braces
    of that object are the only constraint — no `{` earlier in the text
    and no `}` later in the text.  With stray braces in the surrounding
    prose (or several objects) it falls back instead. -/
theorem c5_unique_brace_pair_decodes (pre obj post : String) (v : Json)
    (hpre : ∀ d ∈ pre.data, d ≠ '\x7b')
    (hpost : ∀ d ∈ post.data, d ≠ '\x7d')
    (hhead : obj.data.head? = some '\x7b')
    (hlast : obj.data.getLast? = some '\x7d')
    (hparse : jsonLoads obj = Except.ok v) :
    ClaudeLLM.extract_intent_decode (pre ++ obj ++ post) = v := by
  have hdata : (pre ++ obj ++ post).data = pre.data ++ obj.data ++ post.data := by
    cases pre; cases obj; cases post; rfl
  have hlen1 : 1 ≤ obj.data.length := by
    cases hd : obj.data with
    | nil => rw [hd] at hhead; cases hhead
    | cons _ _ => simp [hd]
  unfold ClaudeLLM.extract_intent_decode
  dsimp only
  rw [hdata, pyFind_prose pre.data obj.data post.data hpre hhead,
    pyRfind_prose pre.data obj.data post.data hpost hlast]
  rw [if_pos (And.intro (by omega) (by omega))]
  have hslice : pySlice (pre.data ++ obj.data ++ post.data)
      ((pre.data.length : Int))
      ((pre.data.length : Int) + (obj.data.length : Int) - 1 + 1)
      = obj.data := by
    unfold pySlice
    have h1 : ((pre.data.length : Int) + (obj.data.length : Int) - 1 + 1).toNat
        = pre.data.length + obj.data.length := by omega
    have h2 : ((pre.data.length : Int)).toNat = pre.data.length := by omega
    rw [h1, h2, List.append_assoc, List.take_append, List.take_left,
      List.drop_left]
  rw [hslice]
  unfold jsonLoads at hparse
  rw [hparse]

/-- C5 witness: a single object wrapped in brace-free prose decodes to the
    object parsed in isolation. -/
theorem c5_unique_brace_pair_decodes_witness :
    ClaudeLLM.extract_intent_decode
        ("Sure! " ++ "\x7b\"intent\": \"open_app\"\x7d" ++ " Done.")
      = Json.obj [("intent", Json.str "open_app")] :=
  c5_unique_brace_pair_decodes "Sure! " "\x7b\"intent\": \"open_app\"\x7d"
    " Done." (Json.obj [("intent", Json.str "open_app")])
    (by decide) (by decide) rfl rfl rfl
